import Mathlib

/-!
# HappyRef — verification of the citation-rendering core

This file is a shallow embedding of the HappyRef Obsidian plugin
(the revision `main - Copy (3).ts` embedded in `src/README.md`; line
numbers in doc comments refer to that file).  JavaScript values that may
be `undefined` are modelled with `Option`; a JavaScript `TypeError`
(indexing `undefined`) is modelled by an `Option`-valued result where
`none` means "the code throws".  JavaScript truthiness is modelled
explicitly: `undefined`, the empty string and the number `0` are falsy,
objects and arrays (even empty ones) are truthy.
-/

namespace HappyRef

/-- Template-literal interpolation of a possibly-`undefined` string value:
`undefined` prints as the text "undefined". -/
def jsOptStr : Option String → String
  | some s => s
  | none => "undefined"

/-- JS truthiness of a possibly-`undefined` string: `undefined` and `""` are falsy. -/
def truthyStr : Option String → Bool
  | some s => !(s == "")
  | none => false

/-- JS truthiness of a possibly-`undefined` number: `undefined` and `0` are falsy. -/
def truthyNum : Option Int → Bool
  | some n => !(n == 0)
  | none => false

/-- JS string indexing `s[0]`: the first character, or `undefined` for `""`. -/
def charAt0 (s : String) : Option String :=
  if s == "" then none else some (s.take 1)

/-- Template-literal interpolation of a possibly-`undefined` number. -/
def jsNumStr : Option Int → String
  | some n => toString n
  | none => "undefined"

/-- JS `Array.prototype.join` with the given separator. -/
def joinSep (sep : String) : List String → String
  | [] => ""
  | [a] => a
  | a :: b :: rest => a ++ sep ++ joinSep sep (b :: rest)

/-- JS `Array.prototype.map` where the callback also receives the element
index (second callback argument). -/
def mapWithIndex (f : Nat → α → β) : Nat → List α → List β
  | _, [] => []
  | i, a :: rest => f i a :: mapWithIndex f (i + 1) rest

/-- JS `String(n).padStart(2, "0")`. -/
def pad2 (n : Int) : String :=
  let s := toString n
  if s.length < 2 then "0" ++ s else s

/-- Crossref author object (`interface Author`): both parts are optional. -/
structure Author where
  given : Option String := none
  family : Option String := none
deriving DecidableEq, Repr

/-- The `issued` object: its `date-parts` key may be absent; when present it
is an array of number arrays. -/
structure IssuedDate where
  dateParts : Option (List (List Int)) := none
deriving DecidableEq, Repr

/-- A Crossref work record (the untyped `message` / `CitationMetadata`):
every field may be absent.  `workType` models the `type` field. -/
structure BibRecord where
  title : Option (List String) := none
  author : Option (List Author) := none
  containerTitle : Option (List String) := none
  publisher : Option String := none
  issued : Option IssuedDate := none
  doi : Option String := none
  url : Option String := none
  volume : Option String := none
  page : Option String := none
  issue : Option String := none
  workType : Option String := none
  isbn : Option (List String) := none
  abstract : Option String := none
  dateAccessed : Option String := none
deriving DecidableEq, Repr

/-- `type CitationStyle` (README.md line 67). -/
inductive CitationStyle where
  | Harvard
  | Vancouver
  | None
  | APA
  | Chicago
  | AMA
  | AP
  | Canadian
  | Oxford
deriving DecidableEq, Repr

/-- The unguarded access `message.issued['date-parts'][0][0]` performed by
every formatter.  The outer `none` models a thrown `TypeError` (indexing
`[0]` on `undefined`), which happens when `issued` is absent, when its
`date-parts` key is absent, and when `date-parts` is the empty array;
otherwise the result is the first row's first entry (possibly `undefined`). -/
def issuedYearAccess : Option IssuedDate → Option (Option Int)
  | none => none
  | some i =>
    match i.dateParts with
    | none => none
    | some [] => none
    | some (row :: _) => some row.head?

/-- Style name as it appears inside the diagnostic strings (the Oxford
formatter prints "Oxford Reference"). -/
def styleDiagName : CitationStyle → String
  | .Harvard => "Harvard"
  | .Vancouver => "Vancouver"
  | .None => ""
  | .APA => "APA"
  | .Chicago => "Chicago"
  | .AMA => "AMA"
  | .AP => "AP"
  | .Canadian => "Canadian"
  | .Oxford => "Oxford Reference"

/-- The missing-data diagnostic returned by every formatter's guard. -/
def missingDataDiag (st : CitationStyle) : String :=
  "Could not generate " ++ styleDiagName st ++ " citation due to missing data."

/-- The year-specific diagnostic returned after the `!year` check. -/
def missingYearDiag (st : CitationStyle) : String :=
  "Could not generate " ++ styleDiagName st ++ " citation due to missing year data."

/-- The guard `!message.author || !message.issued || !message.title ||
!message['container-title']` common to all eight formatters (objects and
arrays are truthy whenever present, so only absence matters). -/
def missingCoreField (m : BibRecord) : Bool :=
  m.author.isNone || m.issued.isNone || m.title.isNone || m.containerTitle.isNone

/-- `${message.title[0]}` after the guard (an empty `title` array still gives
`undefined`). -/
def titleStr (m : BibRecord) : String := jsOptStr (m.title.getD []).head?

/-- `${message['container-title'][0]}` after the guard. -/
def journalStr (m : BibRecord) : String := jsOptStr (m.containerTitle.getD []).head?

/-- `${message.DOI}` (no truthiness check: `undefined` prints literally). -/
def doiStr (m : BibRecord) : String := jsOptStr m.doi

/-- `${author.family}, ${author.given?.[0]}.` — the per-author shape shared
by the Harvard, APA and AP formatters. -/
def famInitialAuthor (a : Author) : String :=
  jsOptStr a.family ++ ", " ++ jsOptStr (a.given.bind charAt0) ++ "."

/-- `formatHarvardCitation` (README.md lines 614-630); `none` = the JS code
throws. -/
def formatHarvardCitation (m : BibRecord) : Option String :=
  if missingCoreField m then
    some (missingDataDiag .Harvard)
  else
    let authors := joinSep ", " ((m.author.getD []).map famInitialAuthor)
    match issuedYearAccess m.issued with
    | none => none
    | some y =>
      if !truthyNum y then some (missingYearDiag .Harvard)
      else
        some (authors ++ " (" ++ jsNumStr y ++ ") " ++ titleStr m ++ ". *" ++
          journalStr m ++ "*. Available at: [https://doi.org/" ++ doiStr m ++
          "] (Accessed: " ++ jsOptStr m.dateAccessed ++ ").")

/-- `${author.family} ${author.given?.[0]}` — the Vancouver author shape. -/
def vanName (a : Author) : String :=
  jsOptStr a.family ++ " " ++ jsOptStr (a.given.bind charAt0)

/-- One entry of the Vancouver author map (README.md lines 639-650): with
more than 3 authors the third gets `", et al"` appended, later ones map to
`""`; otherwise a trailing period is added. -/
def vancouverAuthorEntry (len i : Nat) (a : Author) : String :=
  let s := vanName a
  if 3 < len ∧ i = 2 then s ++ ", et al"
  else if len ≤ 3 ∨ i < 3 then s ++ "."
  else ""

/-- The Vancouver author list (README.md lines 639-651): map with index,
filter out `""` and the exact string `", et al"`, join with single spaces. -/
def vancouverAuthorList (arr : List Author) : String :=
  joinSep " " ((mapWithIndex (vancouverAuthorEntry arr.length) 0 arr).filter
    (fun s => !(s == ", et al") && !(s == "")))

/-- `formatVancouverCitation` (README.md lines 632-661). -/
def formatVancouverCitation (m : BibRecord) : Option String :=
  if missingCoreField m then
    some (missingDataDiag .Vancouver)
  else
    let authors := vancouverAuthorList (m.author.getD [])
    match issuedYearAccess m.issued with
    | none => none
    | some y =>
      if !truthyNum y then some (missingYearDiag .Vancouver)
      else
        some (authors ++ " " ++ titleStr m ++ ". " ++ journalStr m ++ ". " ++
          jsNumStr y ++ "; Available from: [https://doi.org/" ++ doiStr m ++ "].")

/-- The APA author list (README.md lines 669-685): distinct joins for 1, 2,
3..20 and more than 20 authors; zero authors yield `""`. -/
def apaAuthorList (arr : List Author) : String :=
  if arr.length = 1 then famInitialAuthor (arr.headD {})
  else if arr.length = 2 then
    famInitialAuthor (arr.headD {}) ++ " & " ++ famInitialAuthor ((arr.drop 1).headD {})
  else if 2 < arr.length ∧ arr.length ≤ 20 then
    joinSep ", " (mapWithIndex
      (fun i a => if i = arr.length - 1 then "& " ++ famInitialAuthor a else famInitialAuthor a)
      0 arr)
  else if 20 < arr.length then
    joinSep ", " ((arr.take 19).map famInitialAuthor) ++ ", ..., " ++
      famInitialAuthor (arr.getLastD {})
  else ""

/-- `formatAPACitation` (README.md lines 663-723). -/
def formatAPACitation (m : BibRecord) : Option String :=
  if missingCoreField m then some (missingDataDiag .APA)
  else
    let authors := apaAuthorList (m.author.getD [])
    match issuedYearAccess m.issued with
    | none => none
    | some y =>
      if !truthyNum y then some (missingYearDiag .APA)
      else
        let c1 := authors ++ " (" ++ jsNumStr y ++ "). " ++ titleStr m ++ ". *" ++
          journalStr m ++ "*,"
        let c2 := if truthyStr m.volume then c1 ++ " *" ++ m.volume.getD "" ++ "*" else c1
        let c3 := if truthyStr m.issue then c2 ++ "(" ++ m.issue.getD "" ++ ")" else c2
        let c4 := if truthyStr m.page then c3 ++ ", " ++ m.page.getD "" else c3
        let c5 :=
          if truthyStr m.doi then c4 ++ ". " ++ m.doi.getD ""
          else if truthyStr m.url then c4 ++ ". Retrieved from " ++ m.url.getD ""
          else c4
        some c5

/-- `${author.given} ${author.family}` — the full-name author shape of the
Chicago, Canadian and Oxford formatters. -/
def fullName (a : Author) : String := jsOptStr a.given ++ " " ++ jsOptStr a.family

/-- The Chicago author list (README.md lines 732-743). -/
def chicagoAuthorList (arr : List Author) : String :=
  if arr.length = 1 then fullName (arr.headD {})
  else if arr.length = 2 then
    fullName (arr.headD {}) ++ " and " ++ fullName ((arr.drop 1).headD {})
  else if arr.length = 3 then
    fullName (arr.headD {}) ++ ", " ++ fullName ((arr.drop 1).headD {}) ++ ", and " ++
      fullName ((arr.drop 2).headD {})
  else if 3 < arr.length then fullName (arr.headD {}) ++ " et al."
  else ""

/-- `formatChicagoCitation` (README.md lines 726-778). -/
def formatChicagoCitation (m : BibRecord) : Option String :=
  if missingCoreField m then some (missingDataDiag .Chicago)
  else
    let authors := chicagoAuthorList (m.author.getD [])
    match issuedYearAccess m.issued with
    | none => none
    | some y =>
      if !truthyNum y then some (missingYearDiag .Chicago)
      else
        let title := "\"" ++ jsOptStr (m.title.getD []).head? ++ "\""
        let journal := "*" ++ journalStr m ++ "*"
        let c1 := authors ++ ", " ++ title ++ ", " ++ journal
        let c2 :=
          if truthyStr m.volume && truthyStr m.issue && truthyStr m.page then
            c1 ++ " " ++ m.volume.getD "" ++ ", no. " ++ m.issue.getD "" ++ " (" ++
              jsNumStr y ++ "): " ++ m.page.getD "" ++ "."
          else if truthyStr m.volume && truthyNum y then
            c1 ++ " " ++ m.volume.getD "" ++ " (" ++ jsNumStr y ++ ")."
          else if truthyNum y then c1 ++ " (" ++ jsNumStr y ++ ")."
          else c1
        let c3 :=
          if truthyStr m.doi then c2 ++ " https://doi.org/" ++ m.doi.getD "" ++ "."
          else if truthyStr m.url then c2 ++ " " ++ m.url.getD "" ++ "."
          else c2
        some c3

/-- AMA author (README.md lines 788-798): family name plus a ` X.` initial
for each space-separated part of the given name (only when `author.given`
is truthy); JS `charAt(0)` of an empty part is `""`. -/
def amaAuthor (a : Author) : String :=
  let base := jsOptStr a.family
  match a.given with
  | some g =>
    if g == "" then base
    else base ++ String.join ((g.splitOn " ").map (fun p => " " ++ p.take 1 ++ "."))
  | none => base

/-- `formatAMACitation` (README.md lines 780-840). -/
def formatAMACitation (m : BibRecord) : Option String :=
  if missingCoreField m then some (missingDataDiag .AMA)
  else
    let arr := m.author.getD []
    let authors := if 1 ≤ arr.length then joinSep ", " (arr.map amaAuthor) else ""
    match issuedYearAccess m.issued with
    | none => none
    | some y =>
      if !truthyNum y then some (missingYearDiag .AMA)
      else
        let c1 := authors ++ ". " ++ titleStr m ++ ". *" ++ journalStr m ++ "*."
        let c2 := if truthyNum y then c1 ++ " " ++ jsNumStr y ++ ";" else c1
        let c3 := if truthyStr m.volume then c2 ++ m.volume.getD "" else c2
        let c4 := if truthyStr m.issue then c3 ++ "(" ++ m.issue.getD "" ++ ")" else c3
        let c5 := if truthyStr m.page then c4 ++ ":" ++ m.page.getD "" ++ "." else c4 ++ "."
        let c6 :=
          if truthyStr m.doi then c5 ++ " doi:" ++ m.doi.getD ""
          else if truthyStr m.url then
            c5 ++ " Available at: " ++ m.url.getD "" ++ ". Accessed " ++ jsOptStr m.dateAccessed
          else c5
        some c6

/-- `formatAPCitation` (README.md lines 843-885). -/
def formatAPCitation (m : BibRecord) : Option String :=
  if missingCoreField m then some (missingDataDiag .AP)
  else
    let authors := joinSep ", " ((m.author.getD []).map famInitialAuthor)
    match issuedYearAccess m.issued with
    | none => none
    | some y =>
      if !truthyNum y then some (missingYearDiag .AP)
      else
        let c1 := authors ++ " (" ++ jsNumStr y ++ "). " ++ titleStr m ++ ". _" ++
          journalStr m ++ "_"
        let c2 := if truthyStr m.volume then c1 ++ ", " ++ m.volume.getD "" else c1
        let c3 := if truthyStr m.issue then c2 ++ "(" ++ m.issue.getD "" ++ ")" else c2
        let c4 := if truthyStr m.page then c3 ++ ", " ++ m.page.getD "" ++ "." else c3 ++ "."
        let c5 :=
          if truthyStr m.doi then c4 ++ " doi: " ++ m.doi.getD ""
          else if truthyStr m.url then c4 ++ " Retrieved from " ++ m.url.getD ""
          else c4
        some c5

/-- The Canadian author list (README.md lines 893-899). -/
def canadianAuthorList (arr : List Author) : String :=
  if arr.length = 1 then fullName (arr.headD {})
  else joinSep ", and " (arr.map fullName)

/-- `formatCanadianCitation` (README.md lines 887-937). -/
def formatCanadianCitation (m : BibRecord) : Option String :=
  if missingCoreField m then some (missingDataDiag .Canadian)
  else
    let authors := canadianAuthorList (m.author.getD [])
    match issuedYearAccess m.issued with
    | none => none
    | some y =>
      if !truthyNum y then some (missingYearDiag .Canadian)
      else
        let c1 := authors ++ ". " ++ jsNumStr y ++ ". " ++ titleStr m ++ ". _" ++
          journalStr m ++ "_"
        let c2 := if truthyStr m.volume then c1 ++ ", " ++ m.volume.getD "" else c1
        let c3 := if truthyStr m.issue then c2 ++ "(" ++ m.issue.getD "" ++ ")" else c2
        let c4 := if truthyStr m.page then c3 ++ ", " ++ m.page.getD "" ++ "." else c3 ++ "."
        let acc := jsOptStr m.dateAccessed
        let c5 :=
          if truthyStr m.doi then
            c4 ++ ". doi: " ++ m.doi.getD "" ++ " [Accessed " ++ acc ++ "]."
          else if truthyStr m.url then
            c4 ++ ". [Online]. Available: " ++ m.url.getD "" ++ " [Accessed " ++ acc ++ "]."
          else c4 ++ " [Accessed " ++ acc ++ "]."
        some c5

/-- The Oxford author list (README.md lines 945-957): a comma after every
author except the last, joined by " and ". -/
def oxfordAuthorList (arr : List Author) : String :=
  if arr.length = 1 then fullName (arr.headD {}) ++ ","
  else joinSep " and " (mapWithIndex
    (fun i a => if i < arr.length - 1 then fullName a ++ "," else fullName a) 0 arr)

/-- `formatOxfordReferenceCitation` (README.md lines 939-995). -/
def formatOxfordReferenceCitation (m : BibRecord) : Option String :=
  if missingCoreField m then some (missingDataDiag .Oxford)
  else
    let authors := oxfordAuthorList (m.author.getD [])
    match issuedYearAccess m.issued with
    | none => none
    | some y =>
      if !truthyNum y then some (missingYearDiag .Oxford)
      else
        let title := "‘" ++ jsOptStr (m.title.getD []).head? ++ "’,"
        let journal := "*" ++ journalStr m ++ "*"
        let c1 := authors ++ " " ++ title ++ " " ++ journal ++ ","
        let c2 := if truthyStr m.volume then c1 ++ " vol. " ++ m.volume.getD "" else c1
        let c3 := if truthyStr m.issue then c2 ++ ", no. " ++ m.issue.getD "" else c2
        let c4 := if truthyNum y then c3 ++ " (" ++ jsNumStr y ++ ")" else c3
        let c5 := if truthyStr m.page then c4 ++ ", pp. " ++ m.page.getD "" else c4
        let c6 := c5 ++ "."
        let c7 :=
          if truthyStr m.doi then c6 ++ " doi: " ++ m.doi.getD ""
          else if truthyStr m.url then
            c6 ++ " Available at: " ++ m.url.getD "" ++ " (Accessed " ++
              jsOptStr m.dateAccessed ++ ")"
          else c6
        some c7

/-- The style dispatch shared by `createNote` (README.md lines 376-398) and
`changeCitationStyle` (lines 569-589): the `None` style yields `''`. -/
def formatCitation (m : BibRecord) : CitationStyle → Option String
  | .Harvard => formatHarvardCitation m
  | .Vancouver => formatVancouverCitation m
  | .APA => formatAPACitation m
  | .Chicago => formatChicagoCitation m
  | .AMA => formatAMACitation m
  | .AP => formatAPCitation m
  | .Canadian => formatCanadianCitation m
  | .Oxford => formatOxfordReferenceCitation m
  | .None => some ""

/-- Fuel-driven engine for JS `String.prototype.replaceAll` with a plain
string pattern: scan left to right and skip past each replacement, so the
replacement text is never rescanned.  Fuel `s.length` suffices because
every step consumes at least one character of the scanned text. -/
def replaceAllFuel (pat rep : List Char) : Nat → List Char → List Char
  | 0, s => s
  | _ + 1, [] => []
  | fuel + 1, c :: rest =>
    if pat ≠ [] ∧ pat.isPrefixOf (c :: rest) then
      rep ++ replaceAllFuel pat rep fuel ((c :: rest).drop pat.length)
    else c :: replaceAllFuel pat rep fuel rest

/-- JS `s.replaceAll(pat, rep)` for plain string arguments. -/
def jsReplaceAll (s pat rep : String) : String :=
  String.mk (replaceAllFuel pat.data rep.data s.data.length s.data)

/-- The abstract clean-up in `createNote` (README.md lines 407-419).  The
first `replaceAll` is called without a replacement argument, so JS coerces
`undefined` to the string "undefined" and substitutes that for each match. -/
def sanitizeAbstract (a : String) : String :=
  let a1 := jsReplaceAll a "<jats:title>Abstract</jats:title>" "undefined"
  let a2 := jsReplaceAll a1 "<jats:sec>" ""
  let a3 := jsReplaceAll a2 "</jats:sec>" ""
  let a4 := jsReplaceAll a3 "<jats:title>" "### "
  let a5 := jsReplaceAll a4 "</jats:title>" ""
  let a6 := jsReplaceAll a5 "<jats:p>" ""
  let a7 := jsReplaceAll a6 "</jats:p>" ""
  let a8 := jsReplaceAll a7 "<\t" ""
  let a9 := jsReplaceAll a8 "<\n\n" "\n"
  jsReplaceAll a9 "  " ""

/-- The `"Given Family"` strings put into the `authors:` list (README.md
lines 317-321 and 443-445). -/
def authorsStrings (arr : List Author) : List String :=
  arr.map (fun a => jsOptStr a.given ++ " " ++ jsOptStr a.family)

/-- Lower-case hexadecimal digit. -/
def hexDigitChar (n : Nat) : Char :=
  if n < 10 then Char.ofNat (48 + n) else Char.ofNat (87 + n)

/-- One character of `JSON.stringify` string output. -/
def jsonEscapeChar (c : Char) : String :=
  if c = '"' then "\\\""
  else if c = '\\' then "\\\\"
  else if c = '\n' then "\\n"
  else if c = '\t' then "\\t"
  else if c = '\r' then "\\r"
  else if c.toNat = 8 then "\\b"
  else if c.toNat = 12 then "\\f"
  else if c.toNat < 32 then
    "\\u00" ++ String.mk [hexDigitChar (c.toNat / 16), hexDigitChar (c.toNat % 16)]
  else String.singleton c

/-- `JSON.stringify` of a string. -/
def jsonQuote (s : String) : String :=
  "\"" ++ String.join (s.data.map jsonEscapeChar) ++ "\""

/-- `JSON.stringify` of an array of strings. -/
def jsonStringifyArr (l : List String) : String :=
  "[" ++ joinSep "," (l.map jsonQuote) ++ "]"

/-- The `authors:` line of `createNote` (README.md lines 317-327): the list
is built first (empty when `author` is absent) and emitted only when
nonempty. -/
def createAuthorsLine (m : BibRecord) : String :=
  let authors := authorsStrings (m.author.getD [])
  if 0 < authors.length then "authors: " ++ jsonStringifyArr authors ++ "\n" else ""

/-- The `authors:` line of `updateYAMLFrontmatter` (README.md lines
443-446), guarded by `metadata.author && metadata.author.length > 0`. -/
def updateAuthorsLine (m : BibRecord) : String :=
  match m.author with
  | some arr =>
    if 0 < arr.length then "authors: " ++ jsonStringifyArr (authorsStrings arr) ++ "\n"
    else ""
  | none => ""

/-- The `Journal:` line (identical in both serializers), guarded by
`metadata['container-title'] && metadata['container-title'][0]`. -/
def journalLine (m : BibRecord) : String :=
  match m.containerTitle with
  | some (t :: _) => if t == "" then "" else "Journal: " ++ t ++ "\n"
  | _ => ""

/-- A `Key: value` line emitted when the string field is truthy (the
identical Volume, Page, Issue, DOI, Type and URL lines of both
serializers). -/
def optStrLine (key : String) (v : Option String) : String :=
  match v with
  | some s => if s == "" then "" else key ++ ": " ++ s ++ "\n"
  | none => ""

/-- The `Publication_Date:` line (identical in both serializers, README.md
lines 340-349), guarded by `issued && issued['date-parts'] &&
issued['date-parts'][0]`; month and day are appended zero-padded only when
truthy; a missing year in a present first row prints "undefined". -/
def pubDateLine (m : BibRecord) : String :=
  match m.issued with
  | some i =>
    match i.dateParts with
    | some (row :: _) =>
      let y := row.head?
      let mo := (row.drop 1).head?
      let d := (row.drop 2).head?
      let ds := jsNumStr y ++ (if truthyNum mo then "-" ++ pad2 (mo.getD 0) else "") ++
        (if truthyNum d then "-" ++ pad2 (d.getD 0) else "")
      "Publication_Date: " ++ ds ++ "\n"
    | _ => ""
  | none => ""

/-- The `ISBN:` line of `createNote` (README.md lines 359-361), guarded only
by `message.ISBN` (an empty array is truthy and `ISBN[0]` prints
"undefined"). -/
def createIsbnLine (m : BibRecord) : String :=
  match m.isbn with
  | some l => "ISBN: " ++ jsOptStr l.head? ++ "\n"
  | none => ""

/-- The `ISBN:` line of `updateYAMLFrontmatter` (README.md lines 478-480),
guarded by `metadata.ISBN && metadata.ISBN[0]`. -/
def updateIsbnLine (m : BibRecord) : String :=
  match m.isbn with
  | some (x :: _) => if x == "" then "" else "ISBN: " ++ x ++ "\n"
  | _ => ""

/-- The `Date Accessed:` line of `updateYAMLFrontmatter` (README.md lines
481-490): the stored `date-accessed` wins when truthy, else today's date. -/
def updateDateLine (m : BibRecord) (today : String) : String :=
  if truthyStr m.dateAccessed then "Date Accessed: " ++ m.dateAccessed.getD "" ++ "\n"
  else "Date Accessed: " ++ today ++ "\n"

/-- The metadata block emitted by `createNote` (README.md lines 324-370), up
to and including the closing `---`; `today` is the wall-clock `YYYY-MM-DD`
date. -/
def createNoteFrontmatter (m : BibRecord) (today : String) : String :=
  "---\ntags: [CreatedBy/HappyRef]\n" ++
  createAuthorsLine m ++
  journalLine m ++
  optStrLine "Volume" m.volume ++
  optStrLine "Page" m.page ++
  optStrLine "Issue" m.issue ++
  pubDateLine m ++
  optStrLine "DOI" m.doi ++
  optStrLine "Type" m.workType ++
  optStrLine "URL" m.url ++
  createIsbnLine m ++
  ("Date Accessed: " ++ today ++ "\n") ++
  "---"

/-- The replacement metadata block built by `updateYAMLFrontmatter`
(README.md lines 442-492), including the closing `---`. -/
def updateFrontmatterString (m : BibRecord) (today : String) : String :=
  "---\ntags: [CreatedBy/HappyRef]\n" ++
  updateAuthorsLine m ++
  journalLine m ++
  optStrLine "Volume" m.volume ++
  optStrLine "Page" m.page ++
  optStrLine "Issue" m.issue ++
  pubDateLine m ++
  optStrLine "DOI" m.doi ++
  optStrLine "Type" m.workType ++
  optStrLine "URL" m.url ++
  updateIsbnLine m ++
  updateDateLine m today ++
  "---"

/-- `# ${message.title?.[0] || "Untitled"}` (README.md line 374). -/
def headingTitle (m : BibRecord) : String :=
  match m.title with
  | some (t :: _) => if t == "" then "Untitled" else t
  | _ => "Untitled"

/-- The `## Citation` block of `createNote` (README.md lines 400-402),
emitted only when the formatted text is truthy. -/
def citationBlock (citationText : String) : String :=
  if citationText == "" then "" else "## Citation\n" ++ citationText ++ "\n\n---\n\n"

/-- The `## Abstract` section of `createNote` (README.md lines 406-425). -/
def abstractSection (m : BibRecord) : String :=
  "## Abstract\n" ++
  (if truthyStr m.abstract then sanitizeAbstract (m.abstract.getD "") ++ "\n"
   else "*There is no abstract in this citation's metadata*\n")

/-- The full document text written by `createNote` (README.md lines
324-428); `none` models the formatter throwing, in which case no file is
created. -/
def createNoteContent (m : BibRecord) (style : CitationStyle) (today : String) :
    Option String :=
  match formatCitation m style with
  | none => none
  | some citationText =>
    some (createNoteFrontmatter m today ++ "\n\n" ++
      "# " ++ headingTitle m ++ "\n\n" ++
      citationBlock citationText ++
      abstractSection m)

/-- First-occurrence split: `splitFirst pat s = some (pre, post)` when
`s = pre ++ pat ++ post` with `pre` minimal (the `indexOf` search underlying
a JS regex built from literal text). -/
def splitFirst (pat : List Char) : List Char → Option (List Char × List Char)
  | [] => none
  | c :: rest =>
    if pat.isPrefixOf (c :: rest) then some ([], (c :: rest).drop pat.length)
    else
      match splitFirst pat rest with
      | some (pre, post) => some (c :: pre, post)
      | none => none

/-- Group 1 of the citation-section regex. -/
def headPat : List Char := "## Citation\n".data

/-- Group 3 of the citation-section regex. -/
def termPat : List Char := "\n---".data

/-- Decomposition performed by `/(## Citation\n)([\s\S]*?)(\n---)/`
(README.md line 592): the match starts at the first `"## Citation\n"`, and
the lazy middle group ends at the first later `"\n---"`.  If no `"\n---"`
follows the first heading, none follows any later heading either, so the
regex fails to match at every start position. -/
def splitCitation (s : List Char) : Option (List Char × List Char × List Char) :=
  match splitFirst headPat s with
  | none => none
  | some (pre, tail) =>
    match splitFirst termPat tail with
    | none => none
    | some (mid, post) => some (pre, mid, post)

/-- JS `String.prototype.replace` substitution of `$`-patterns in the
replacement string: `$1 $2 $3` are the groups, `$&` the whole match, `$`
followed by the backquote character (code 96) the text before the match,
`$` followed by the apostrophe character (code 39) the text after it, `$$`
a literal dollar; anything else is copied verbatim. -/
def expandRepl (g1 g2 g3 pre post : List Char) : List Char → List Char
  | [] => []
  | '$' :: rest =>
    match rest with
    | [] => ['$']
    | c :: rest2 =>
      if c = '1' then g1 ++ expandRepl g1 g2 g3 pre post rest2
      else if c = '2' then g2 ++ expandRepl g1 g2 g3 pre post rest2
      else if c = '3' then g3 ++ expandRepl g1 g2 g3 pre post rest2
      else if c = '&' then g1 ++ g2 ++ g3 ++ expandRepl g1 g2 g3 pre post rest2
      else if c = '$' then '$' :: expandRepl g1 g2 g3 pre post rest2
      else if c = Char.ofNat 96 then pre ++ expandRepl g1 g2 g3 pre post rest2
      else if c = Char.ofNat 39 then post ++ expandRepl g1 g2 g3 pre post rest2
      else '$' :: c :: expandRepl g1 g2 g3 pre post rest2
  | c :: rest => c :: expandRepl g1 g2 g3 pre post rest

/-- The replacement template `` `$1${citationText}\n\n---` `` of
`changeCitationStyle` (README.md line 598). -/
def citationReplTemplate (text : String) : List Char :=
  "$1".data ++ text.data ++ "\n\n---".data

/-- The citation-section rewrite of `changeCitationStyle` (README.md lines
592-603): replace the first regex match, or append a fresh section at the
end of the body when there is none. -/
def replaceCitationSection (body text : String) : String :=
  match splitCitation body.data with
  | some (pre, mid, post) =>
    String.mk (pre ++ expandRepl headPat mid termPat pre post (citationReplTemplate text) ++ post)
  | none => body ++ "\n## Citation\n" ++ text ++ "\n\n---"

/-- The anchored frontmatter regex `^---([\s\S]*?)---` (a slash-delimited
JS regex literal in the source) used by
`updateYAMLFrontmatter` and `changeCitationStyle` (README.md lines 437 and
511): `some (mid, rest)` means the document is
`"---" ++ mid ++ "---" ++ rest` with `mid` minimal. -/
def splitFrontmatter (s : List Char) : Option (List Char × List Char) :=
  if "---".data.isPrefixOf s then
    match splitFirst "---".data (s.drop 3) with
    | some (mid, rest) => some (mid, rest)
    | none => none
  else none

/-- The document rewrite performed by `changeCitationStyle` (README.md lines
510-521 and 592-606) once the citation text is known: split off the
frontmatter (`none` models the thrown "No YAML frontmatter found" error),
rewrite the citation section of the body, and re-assemble the file as
`` `---\n${frontmatterMatch[1]}---\n${updatedContent}` ``. -/
def changeCitationStyleUpdate (fileContent citationText : String) : Option String :=
  match splitFrontmatter fileContent.data with
  | none => none
  | some (mid, body) =>
    some ("---\n" ++ String.mk mid ++ "---\n" ++
      replaceCitationSection (String.mk body) citationText)

/-- Substring test built on `splitFirst`. -/
def containsSubstr (s pat : String) : Bool := (splitFirst pat.data s.data).isSome

/-- `folderPath.replace(/\/+$/, '')` — strip all trailing slashes. -/
def stripTrailingSlashes (s : String) : String :=
  String.mk ((s.data.reverse.dropWhile (fun c => c = '/')).reverse)

/-- The n-th candidate path of `createNote`'s collision loop (README.md
lines 285-314): candidate 0 is `base.md`, candidate n is `base (n).md`,
placed inside `folderPath` (trailing slashes stripped) unless it is empty. -/
def candidatePath (folderPath base : String) (n : Nat) : String :=
  let name := if n = 0 then base else base ++ " (" ++ toString n ++ ")"
  if folderPath == "" then name ++ ".md"
  else stripTrailingSlashes folderPath ++ "/" ++ name ++ ".md"

/-- The collision loop of `createNote` (README.md lines 306-314): try
candidates in order until `ex` — "does `getAbstractFileByPath` return an
existing file here?" — answers no.  `fuel` bounds the unbounded `while`
loop of the source; `none` means the fuel ran out. -/
def resolveLoop (ex : String → Bool) (folderPath base : String) :
    Nat → Nat → Option String
  | _, 0 => none
  | n, fuel + 1 =>
    let p := candidatePath folderPath base n
    if ex p then resolveLoop ex folderPath base (n + 1) fuel else some p

/-- The collision-avoiding path resolution of `createNote`, starting at the
unsuffixed candidate. -/
def resolvePath (ex : String → Bool) (folderPath base : String) (fuel : Nat) :
    Option String :=
  resolveLoop ex folderPath base 0 fuel

/-- Emission condition of the `authors:` key of `createNote`. -/
def hasAuthorsKey (m : BibRecord) : Bool := !(authorsStrings (m.author.getD [])).isEmpty

/-- Emission condition of the `Journal:` key. -/
def hasJournalKey (m : BibRecord) : Bool :=
  match m.containerTitle with
  | some (t :: _) => !(t == "")
  | _ => false

/-- Emission condition of the `Publication_Date:` key. -/
def hasPubDateKey (m : BibRecord) : Bool :=
  match m.issued with
  | some i =>
    match i.dateParts with
    | some (_ :: _) => true
    | _ => false
  | none => false

/-- The keys of the YAML metadata block that `createNote` writes (README.md
lines 324-370), in emission order, paired with their emission conditions. -/
def noteFrontmatterKeyTable (m : BibRecord) : List (Bool × String) :=
  [(true, "tags"),
   (hasAuthorsKey m, "authors"),
   (hasJournalKey m, "Journal"),
   (truthyStr m.volume, "Volume"),
   (truthyStr m.page, "Page"),
   (truthyStr m.issue, "Issue"),
   (hasPubDateKey m, "Publication_Date"),
   (truthyStr m.doi, "DOI"),
   (truthyStr m.workType, "Type"),
   (truthyStr m.url, "URL"),
   (m.isbn.isSome, "ISBN"),
   (true, "Date Accessed")]

/-- The set of keys `yaml.load` recovers from a rendered note's metadata
block. -/
def noteFrontmatterKeys (m : BibRecord) : List String :=
  ((noteFrontmatterKeyTable m).filter (fun e => e.1)).map (fun e => e.2)

/-- `requiredMetadata` of `changeCitationStyle` (README.md line 527). -/
def requiredMetadata : List String := ["author", "issued", "title", "container-title"]

/-- The completeness check of `changeCitationStyle` (README.md lines
528-534): every required key must be present with a truthy value; a key the
renderer never writes reads back `undefined`, which is falsy. -/
def metadataComplete (keys : List String) : Bool :=
  requiredMetadata.all (fun field => keys.contains field)

/-- The stored DOI the flow can re-fetch with: the metadata block of a
rendered note has a `DOI` entry exactly when the record's DOI was truthy at
render time, and its value is that DOI. -/
def noteStoredDoi (m : BibRecord) : Option String :=
  if truthyStr m.doi then m.doi else none

/-- Outcome of the metadata-check step of `changeCitationStyle` (README.md
lines 526-566). -/
inductive StyleChangePath where
  | useStored
  | refetch (doi : String)
  | missingDoiFailure
deriving DecidableEq, Repr

/-- The decision logic of `changeCitationStyle` (README.md lines 526-566):
complete metadata is used as stored; otherwise a truthy stored DOI triggers
a re-fetch, and a missing (or falsy) one raises the terminal
"Missing DOI in note metadata. Cannot re-fetch citation data." error. -/
def changeStyleDecision (keys : List String) (storedDoi : Option String) :
    StyleChangePath :=
  if metadataComplete keys then .useStored
  else
    match storedDoi with
    | some d => if d == "" then .missingDoiFailure else .refetch d
    | none => .missingDoiFailure

/-- Prefix test on strings (JS `String.prototype.startsWith`). -/
def stringStartsWith (s pre : String) : Bool := pre.data.isPrefixOf s.data

/-- Safety condition on a record: `issued`, when present, carries a
`date-parts` array with at least one row — exactly the records on which the
unguarded `issued['date-parts'][0][0]` access cannot throw. -/
def issuedSafe (m : BibRecord) : Prop :=
  m.issued = none ∨ ∃ i row rest, m.issued = some i ∧ i.dateParts = some (row :: rest)

/-- If any core field is absent, the formatters' common guard fires. -/
theorem missingCoreField_eq_true (m : BibRecord)
    (h : m.author = none ∨ m.issued = none ∨ m.title = none ∨ m.containerTitle = none) :
    missingCoreField m = true := by
  rcases h with h | h | h | h <;> simp [missingCoreField, h]

/-- If all four core fields are present, the common guard does not fire. -/
theorem missingCoreField_eq_false (m : BibRecord) (ha : m.author.isSome = true)
    (hi : m.issued.isSome = true) (ht : m.title.isSome = true)
    (hc : m.containerTitle.isSome = true) : missingCoreField m = false := by
  obtain ⟨a, ha⟩ := Option.isSome_iff_exists.mp ha
  obtain ⟨i, hi⟩ := Option.isSome_iff_exists.mp hi
  obtain ⟨t, ht⟩ := Option.isSome_iff_exists.mp ht
  obtain ⟨c, hc⟩ := Option.isSome_iff_exists.mp hc
  simp [missingCoreField, ha, hi, ht, hc]

/-- On a record satisfying `issuedSafe`, the Harvard formatter returns a string. -/
theorem formatHarvard_isSome (m : BibRecord) (h : issuedSafe m) :
    (formatHarvardCitation m).isSome = true := by
  unfold formatHarvardCitation
  cases hg : missingCoreField m with
  | true => simp [hg]
  | false =>
    rcases h with h0 | ⟨i, row, rest, hi, hdp⟩
    · simp [missingCoreField, h0] at hg
    · simp [hg, hi, issuedYearAccess, hdp]
      split <;> simp

/-- On a record satisfying `issuedSafe`, the Vancouver formatter returns a string. -/
theorem formatVancouver_isSome (m : BibRecord) (h : issuedSafe m) :
    (formatVancouverCitation m).isSome = true := by
  unfold formatVancouverCitation
  cases hg : missingCoreField m with
  | true => simp [hg]
  | false =>
    rcases h with h0 | ⟨i, row, rest, hi, hdp⟩
    · simp [missingCoreField, h0] at hg
    · simp [hg, hi, issuedYearAccess, hdp]
      split <;> simp

/-- On a record satisfying `issuedSafe`, the APA formatter returns a string. -/
theorem formatAPA_isSome (m : BibRecord) (h : issuedSafe m) :
    (formatAPACitation m).isSome = true := by
  unfold formatAPACitation
  cases hg : missingCoreField m with
  | true => simp [hg]
  | false =>
    rcases h with h0 | ⟨i, row, rest, hi, hdp⟩
    · simp [missingCoreField, h0] at hg
    · simp [hg, hi, issuedYearAccess, hdp]
      split <;> simp

/-- On a record satisfying `issuedSafe`, the Chicago formatter returns a string. -/
theorem formatChicago_isSome (m : BibRecord) (h : issuedSafe m) :
    (formatChicagoCitation m).isSome = true := by
  unfold formatChicagoCitation
  cases hg : missingCoreField m with
  | true => simp [hg]
  | false =>
    rcases h with h0 | ⟨i, row, rest, hi, hdp⟩
    · simp [missingCoreField, h0] at hg
    · simp [hg, hi, issuedYearAccess, hdp]
      split <;> simp

/-- On a record satisfying `issuedSafe`, the AMA formatter returns a string. -/
theorem formatAMA_isSome (m : BibRecord) (h : issuedSafe m) :
    (formatAMACitation m).isSome = true := by
  unfold formatAMACitation
  cases hg : missingCoreField m with
  | true => simp [hg]
  | false =>
    rcases h with h0 | ⟨i, row, rest, hi, hdp⟩
    · simp [missingCoreField, h0] at hg
    · simp [hg, hi, issuedYearAccess, hdp]
      split <;> simp

/-- On a record satisfying `issuedSafe`, the AP formatter returns a string. -/
theorem formatAP_isSome (m : BibRecord) (h : issuedSafe m) :
    (formatAPCitation m).isSome = true := by
  unfold formatAPCitation
  cases hg : missingCoreField m with
  | true => simp [hg]
  | false =>
    rcases h with h0 | ⟨i, row, rest, hi, hdp⟩
    · simp [missingCoreField, h0] at hg
    · simp [hg, hi, issuedYearAccess, hdp]
      split <;> simp

/-- On a record satisfying `issuedSafe`, the Canadian formatter returns a string. -/
theorem formatCanadian_isSome (m : BibRecord) (h : issuedSafe m) :
    (formatCanadianCitation m).isSome = true := by
  unfold formatCanadianCitation
  cases hg : missingCoreField m with
  | true => simp [hg]
  | false =>
    rcases h with h0 | ⟨i, row, rest, hi, hdp⟩
    · simp [missingCoreField, h0] at hg
    · simp [hg, hi, issuedYearAccess, hdp]
      split <;> simp

/-- On a record satisfying `issuedSafe`, the Oxford formatter returns a string. -/
theorem formatOxford_isSome (m : BibRecord) (h : issuedSafe m) :
    (formatOxfordReferenceCitation m).isSome = true := by
  unfold formatOxfordReferenceCitation
  cases hg : missingCoreField m with
  | true => simp [hg]
  | false =>
    rcases h with h0 | ⟨i, row, rest, hi, hdp⟩
    · simp [missingCoreField, h0] at hg
    · simp [hg, hi, issuedYearAccess, hdp]
      split <;> simp

/-- C1, claim as stated, is false: on a record whose `issued` is present but
has no `date-parts` array (all other core fields present), the Harvard
formatter throws a `TypeError` (`none`) instead of returning a string. -/
theorem claim1_counterexample :
    formatCitation
      { author := some [{ given := some "A", family := some "B" }],
        issued := some { dateParts := none },
        title := some ["T"], containerTitle := some ["J"] }
      CitationStyle.Harvard = none := rfl

/-- C1 (amended): for every citation style, the formatter returns a string —
never throws — on every record whose `issued` field, when present, carries a
`date-parts` array with at least one row.  (Without that proviso the
unguarded `issued['date-parts'][0][0]` access throws, see the
counterexample.) -/
theorem claim1_amended (m : BibRecord) (style : CitationStyle) (h : issuedSafe m) :
    (formatCitation m style).isSome = true := by
  cases style with
  | Harvard => exact formatHarvard_isSome m h
  | Vancouver => exact formatVancouver_isSome m h
  | APA => exact formatAPA_isSome m h
  | Chicago => exact formatChicago_isSome m h
  | AMA => exact formatAMA_isSome m h
  | AP => exact formatAP_isSome m h
  | Canadian => exact formatCanadian_isSome m h
  | Oxford => exact formatOxford_isSome m h
  | None => rfl

/-- Witness for C1 (amended) at a concrete record and style. -/
theorem claim1_witness :
    issuedSafe
      { title := some ["T"], containerTitle := some ["J"],
        author := some [{ given := some "A", family := some "B" }],
        issued := some { dateParts := some [[2020]] } } ∧
    (formatCitation
      { title := some ["T"], containerTitle := some ["J"],
        author := some [{ given := some "A", family := some "B" }],
        issued := some { dateParts := some [[2020]] } }
      CitationStyle.Harvard).isSome = true :=
  ⟨Or.inr ⟨{ dateParts := some [[2020]] }, [2020], [], rfl, rfl⟩,
   claim1_amended _ CitationStyle.Harvard
     (Or.inr ⟨{ dateParts := some [[2020]] }, [2020], [], rfl, rfl⟩)⟩

/-- C2: when any of the four core fields is absent, every (non-`None`)
style's formatter returns exactly its missing-data diagnostic — a string
starting with "Could not generate" — and does not throw. -/
theorem claim2_thm (m : BibRecord) (style : CitationStyle)
    (hstyle : style ≠ CitationStyle.None)
    (h : m.author = none ∨ m.issued = none ∨ m.title = none ∨ m.containerTitle = none) :
    formatCitation m style = some (missingDataDiag style) ∧
    stringStartsWith (missingDataDiag style) "Could not generate" = true := by
  have hg := missingCoreField_eq_true m h
  cases style with
  | None => exact absurd rfl hstyle
  | Harvard => exact ⟨by unfold formatCitation formatHarvardCitation; simp [hg], by decide⟩
  | Vancouver => exact ⟨by unfold formatCitation formatVancouverCitation; simp [hg], by decide⟩
  | APA => exact ⟨by unfold formatCitation formatAPACitation; simp [hg], by decide⟩
  | Chicago => exact ⟨by unfold formatCitation formatChicagoCitation; simp [hg], by decide⟩
  | AMA => exact ⟨by unfold formatCitation formatAMACitation; simp [hg], by decide⟩
  | AP => exact ⟨by unfold formatCitation formatAPCitation; simp [hg], by decide⟩
  | Canadian => exact ⟨by unfold formatCitation formatCanadianCitation; simp [hg], by decide⟩
  | Oxford => exact ⟨by unfold formatCitation formatOxfordReferenceCitation; simp [hg], by decide⟩

/-- Witness for C2 at the empty record and the Harvard style. -/
theorem claim2_witness :
    formatCitation {} CitationStyle.Harvard =
      some (missingDataDiag CitationStyle.Harvard) ∧
    stringStartsWith (missingDataDiag CitationStyle.Harvard) "Could not generate" = true :=
  claim2_thm {} CitationStyle.Harvard (by decide) (Or.inl rfl)

/-- C8, claim as stated, is false: a record with all four core fields
present whose `issued['date-parts']` is the empty array has "no first year",
yet the Harvard formatter throws (`none`) rather than returning the
year-specific diagnostic. -/
theorem claim8_counterexample :
    formatCitation
      { author := some [{ given := some "A", family := some "B" }],
        issued := some { dateParts := some [] },
        title := some ["T"], containerTitle := some ["J"] }
      CitationStyle.Harvard = none := rfl

/-- C8 (amended): when the four core fields are present and `date-parts`
has a first row but that row has no first (year) entry, every non-`None`
style's formatter returns the year-specific diagnostic, which differs from
the generic missing-data diagnostic.  (When `date-parts` itself is absent
or empty the code throws instead, see the counterexample.) -/
theorem claim8_amended (m : BibRecord) (style : CitationStyle)
    (hstyle : style ≠ CitationStyle.None)
    (ha : m.author.isSome = true) (ht : m.title.isSome = true)
    (hc : m.containerTitle.isSome = true) (rest : List (List Int))
    (hi : m.issued = some { dateParts := some ([] :: rest) }) :
    formatCitation m style = some (missingYearDiag style) ∧
    missingYearDiag style ≠ missingDataDiag style := by
  have hg : missingCoreField m = false :=
    missingCoreField_eq_false m ha (by simp [hi]) ht hc
  cases style with
  | None => exact absurd rfl hstyle
  | Harvard =>
    exact ⟨by unfold formatCitation formatHarvardCitation
              simp [hg, hi, issuedYearAccess, truthyNum], by decide⟩
  | Vancouver =>
    exact ⟨by unfold formatCitation formatVancouverCitation
              simp [hg, hi, issuedYearAccess, truthyNum], by decide⟩
  | APA =>
    exact ⟨by unfold formatCitation formatAPACitation
              simp [hg, hi, issuedYearAccess, truthyNum], by decide⟩
  | Chicago =>
    exact ⟨by unfold formatCitation formatChicagoCitation
              simp [hg, hi, issuedYearAccess, truthyNum], by decide⟩
  | AMA =>
    exact ⟨by unfold formatCitation formatAMACitation
              simp [hg, hi, issuedYearAccess, truthyNum], by decide⟩
  | AP =>
    exact ⟨by unfold formatCitation formatAPCitation
              simp [hg, hi, issuedYearAccess, truthyNum], by decide⟩
  | Canadian =>
    exact ⟨by unfold formatCitation formatCanadianCitation
              simp [hg, hi, issuedYearAccess, truthyNum], by decide⟩
  | Oxford =>
    exact ⟨by unfold formatCitation formatOxfordReferenceCitation
              simp [hg, hi, issuedYearAccess, truthyNum], by decide⟩

/-- Witness for C8 (amended) at a concrete record and the Harvard style. -/
theorem claim8_witness :
    formatCitation
      { author := some [{ given := some "A", family := some "B" }],
        issued := some { dateParts := some [[]] },
        title := some ["T"], containerTitle := some ["J"] }
      CitationStyle.Harvard = some (missingYearDiag CitationStyle.Harvard) ∧
    missingYearDiag CitationStyle.Harvard ≠ missingDataDiag CitationStyle.Harvard :=
  claim8_amended _ CitationStyle.Harvard (by decide) (by decide) (by decide) (by decide)
    [] rfl

/-- C4 (code bug): on the spec's example abstract the sanitizer yields
"undefinedText", not "Text" — the first `replaceAll` call (README.md line
408) lacks its replacement argument, so JS coerces `undefined` to the
string "undefined" and splices that text into the note. -/
theorem claim4_eval :
    sanitizeAbstract "<jats:title>Abstract</jats:title><jats:p>Text</jats:p>" =
      "undefinedText" := by decide

/-- The collision loop, started at index `i` with more fuel than the gap to
`n`, returns the first candidate the `exists` predicate rejects. -/
theorem resolveLoop_first_free (ex : String → Bool) (folderPath base : String) :
    ∀ fuel i n : Nat, i ≤ n → n - i < fuel →
      (∀ k, i ≤ k → k < n → ex (candidatePath folderPath base k) = true) →
      ex (candidatePath folderPath base n) = false →
      resolveLoop ex folderPath base i fuel = some (candidatePath folderPath base n) := by
  intro fuel
  induction fuel with
  | zero => intro i n h1 h2 _ _; omega
  | succ fuel ih =>
    intro i n h1 h2 hall hn
    by_cases hin : i = n
    · subst hin
      simp [resolveLoop, hn]
    · have hex : ex (candidatePath folderPath base i) = true := hall i le_rfl (by omega)
      simp only [resolveLoop, hex, if_true]
      exact ih (i + 1) n (by omega) (by omega) (fun k hk1 hk2 => hall k (by omega) hk2) hn

/-- C7: the resolver returns the first candidate not reported as existing —
`folder/base.md` first, then `folder/base (n).md` for n = 1, 2, 3, ... -/
theorem claim7_thm (ex : String → Bool) (folderPath base : String) (n fuel : Nat)
    (hfuel : n < fuel)
    (hall : ∀ k, k < n → ex (candidatePath folderPath base k) = true)
    (hn : ex (candidatePath folderPath base n) = false) :
    resolvePath ex folderPath base fuel = some (candidatePath folderPath base n) :=
  resolveLoop_first_free ex folderPath base fuel 0 n (Nat.zero_le n) (by omega)
    (fun k _ hk2 => hall k hk2) hn

/-- Witness for C7: with `exists` true exactly on "X.md", "X (1).md" and
"X (2).md", the resolver returns "X (3).md". -/
theorem claim7_witness :
    resolvePath (fun s => (["X.md", "X (1).md", "X (2).md"] : List String).contains s)
      "" "X" 10 = some "X (3).md" := by
  have h := claim7_thm
    (fun s => (["X.md", "X (1).md", "X (2).md"] : List String).contains s)
    "" "X" 3 10 (by omega) (by decide) (by decide)
  rw [h]
  decide

/-- Every key the renderer can write into a note's metadata block. -/
theorem noteFrontmatterKeys_mem (m : BibRecord) :
    ∀ k ∈ noteFrontmatterKeys m,
      k ∈ (["tags", "authors", "Journal", "Volume", "Page", "Issue",
        "Publication_Date", "DOI", "Type", "URL", "ISBN",
        "Date Accessed"] : List String) := by
  intro k hk
  obtain ⟨e, he, rfl⟩ := List.mem_map.mp hk
  have he2 := (List.mem_filter.mp he).1
  have hm : e.2 ∈ (noteFrontmatterKeyTable m).map (fun e => e.2) :=
    List.mem_map_of_mem _ he2
  simpa [noteFrontmatterKeyTable] using hm

/-- A key outside the renderer's fixed key set never appears in a rendered
metadata block. -/
theorem required_key_not_mem (m : BibRecord) (k : String)
    (hk : k ∉ (["tags", "authors", "Journal", "Volume", "Page", "Issue",
      "Publication_Date", "DOI", "Type", "URL", "ISBN",
      "Date Accessed"] : List String)) : k ∉ noteFrontmatterKeys m :=
  fun h => hk (noteFrontmatterKeys_mem m k h)

/-- C10: the renderer never writes any of the keys `author`, `issued`,
`title`, `container-title` that the change-citation-style completeness check
looks for (it writes `authors`, `Journal`, `Publication_Date` and no title
key at all), so the check fails on every rendered note, the flow always
takes the re-fetch path, and when the metadata block stores no DOI it
terminates with the missing-DOI failure. -/
theorem claim10_thm (m : BibRecord) :
    "author" ∉ noteFrontmatterKeys m ∧ "issued" ∉ noteFrontmatterKeys m ∧
    "title" ∉ noteFrontmatterKeys m ∧ "container-title" ∉ noteFrontmatterKeys m ∧
    metadataComplete (noteFrontmatterKeys m) = false ∧
    (noteStoredDoi m = none →
      changeStyleDecision (noteFrontmatterKeys m) (noteStoredDoi m) =
        StyleChangePath.missingDoiFailure) := by
  have hauthor := required_key_not_mem m "author" (by decide)
  have hissued := required_key_not_mem m "issued" (by decide)
  have htitle := required_key_not_mem m "title" (by decide)
  have hct := required_key_not_mem m "container-title" (by decide)
  have hcomplete : metadataComplete (noteFrontmatterKeys m) = false := by
    unfold metadataComplete requiredMetadata
    simp
    exact fun ha _ _ => absurd ha hauthor
  refine ⟨hauthor, hissued, htitle, hct, hcomplete, fun hdoi => ?_⟩
  unfold changeStyleDecision
  simp [hcomplete, hdoi]

/-- Witness for C10 at the empty record (which stores no DOI). -/
theorem claim10_witness :
    metadataComplete (noteFrontmatterKeys {}) = false ∧
    changeStyleDecision (noteFrontmatterKeys {}) (noteStoredDoi {}) =
      StyleChangePath.missingDoiFailure :=
  ⟨(claim10_thm {}).2.2.2.2.1, (claim10_thm {}).2.2.2.2.2 (by decide)⟩

/-- Soundness of `splitFirst`: a successful split is a decomposition of the
input around the pattern. -/
theorem splitFirst_eq_append (pat : List Char) :
    ∀ s pre post, splitFirst pat s = some (pre, post) → s = pre ++ pat ++ post := by
  intro s
  induction s with
  | nil => intro pre post h; simp [splitFirst] at h
  | cons c rest ih =>
    intro pre post h
    unfold splitFirst at h
    split at h
    · rename_i hpre
      simp only [Option.some.injEq, Prod.mk.injEq] at h
      obtain ⟨h1, h2⟩ := h
      subst h1; subst h2
      obtain ⟨t, ht⟩ := List.isPrefixOf_iff_prefix.mp hpre
      simp [← ht, List.drop_left]
    · split at h
      · rename_i pre2 post2 hrec
        simp only [Option.some.injEq, Prod.mk.injEq] at h
        obtain ⟨h1, h2⟩ := h
        subst h1; subst h2
        simp [ih pre2 post2 hrec]
      · exact absurd h (by simp)

/-- Completeness of `splitFirst`: it succeeds on any input that has an
explicit decomposition around the (nonempty) pattern. -/
theorem splitFirst_isSome_append (pat : List Char) (hpat : pat ≠ []) :
    ∀ a b : List Char, (splitFirst pat (a ++ (pat ++ b))).isSome = true := by
  intro a
  induction a with
  | nil =>
    intro b
    cases pat with
    | nil => exact absurd rfl hpat
    | cons c pat2 =>
      have hpre : (c :: pat2).isPrefixOf ((c :: pat2) ++ b) = true :=
        List.isPrefixOf_iff_prefix.mpr (List.prefix_append _ _)
      simp only [List.nil_append]
      simp [splitFirst, hpre]
  | cons x a2 ih =>
    intro b
    by_cases hpre : pat.isPrefixOf (x :: (a2 ++ (pat ++ b))) = true
    · simp [splitFirst, hpre]
    · have hx := ih b
      cases hrec : splitFirst pat (a2 ++ (pat ++ b)) with
      | none => rw [hrec] at hx; simp at hx
      | some pr =>
        obtain ⟨pre2, post2⟩ := pr
        simp [splitFirst, hpre, hrec]

/-- A list with an explicit decomposition around a nonempty pattern passes
the first-occurrence search. -/
theorem splitFirst_isSome_of_decomp (pat l a b : List Char) (hpat : pat ≠ [])
    (h : l = a ++ (pat ++ b)) : (splitFirst pat l).isSome = true := by
  rw [h]; exact splitFirst_isSome_append pat hpat a b

/-- Soundness of `splitCitation`: a successful match decomposes the body as
`pre ++ "## Citation\n" ++ mid ++ "\n---" ++ post`. -/
theorem splitCitation_eq_append (s pre mid post : List Char)
    (h : splitCitation s = some (pre, mid, post)) :
    s = pre ++ headPat ++ mid ++ termPat ++ post := by
  unfold splitCitation at h
  split at h
  · exact absurd h (by simp)
  · rename_i pre1 tail1 h1
    split at h
    · exact absurd h (by simp)
    · rename_i mid2 post2 h2
      simp only [Option.some.injEq, Prod.mk.injEq] at h
      obtain ⟨hp, hm, hq⟩ := h
      subst hp; subst hm; subst hq
      have e1 := splitFirst_eq_append headPat s pre1 tail1 h1
      have e2 := splitFirst_eq_append termPat tail1 mid2 post2 h2
      rw [e1, e2]
      simp [List.append_assoc]

/-- C6, claim as stated, is false: on a plugin-shaped note, changing the
citation text rewrites bytes OUTSIDE the `## Citation` ... `---` span — the
re-assembled frontmatter gains a newline after its opening `---` and
another after its closing `---` (cf. the claim's "leaving every other byte
of the document (metadata block and body ...) unchanged"). -/
theorem claim6_counterexample :
    changeCitationStyleUpdate
      "---\ntags: [CreatedBy/HappyRef]\n---\n\n# T\n\n## Citation\nOLD\n\n---\n\n## Abstract\nA\n"
      "NEW" =
      some "---\n\ntags: [CreatedBy/HappyRef]\n---\n\n\n# T\n\n## Citation\nNEW\n\n---\n\n## Abstract\nA\n" ∧
    ("---\n\ntags: [CreatedBy/HappyRef]\n---\n\n\n# T\n\n## Citation\nNEW\n\n---\n\n## Abstract\nA\n" : String) ≠
      "---\ntags: [CreatedBy/HappyRef]\n---\n\n# T\n\n## Citation\nNEW\n\n---\n\n## Abstract\nA\n" :=
  ⟨by decide, by decide⟩

/-- C6 (amended): the citation-section replacement is a frame operation on
the note BODY: when the regex matches, the body decomposes as
`pre ++ "## Citation\n" ++ mid ++ "\n---" ++ post` and the rewritten body
keeps `pre` and `post` byte-for-byte, changing only the span between them;
when it does not match, the new section is appended after the byte-identical
body.  (The full-document rewrite additionally re-frames the metadata
block, inserting newlines around its delimiters — see the counterexample.) -/
theorem claim6_amended (body text : String) :
    (∀ pre mid post, splitCitation body.data = some (pre, mid, post) →
      body.data = pre ++ headPat ++ mid ++ termPat ++ post ∧
      (replaceCitationSection body text).data =
        pre ++ expandRepl headPat mid termPat pre post (citationReplTemplate text) ++ post) ∧
    (splitCitation body.data = none →
      replaceCitationSection body text = body ++ "\n## Citation\n" ++ text ++ "\n\n---") := by
  constructor
  · intro pre mid post h
    refine ⟨splitCitation_eq_append body.data pre mid post h, ?_⟩
    simp [replaceCitationSection, h]
  · intro h
    simp [replaceCitationSection, h]

/-- Witness for C6 (amended) on a concrete body containing a citation span. -/
theorem claim6_witness :
    ("A\n## Citation\nOLD\n\n---\nB" : String).data =
      "A\n".data ++ headPat ++ "OLD\n".data ++ termPat ++ "\nB".data ∧
    (replaceCitationSection "A\n## Citation\nOLD\n\n---\nB" "NEW").data =
      "A\n".data ++ expandRepl headPat "OLD\n".data termPat "A\n".data "\nB".data
        (citationReplTemplate "NEW") ++ "\nB".data :=
  (claim6_amended "A\n## Citation\nOLD\n\n---\nB" "NEW").1
    "A\n".data "OLD\n".data "\nB".data (by decide)

/-- Substituting the empty citation text into the replacement template
yields the heading followed by the blank-line-and-rule tail. -/
theorem expandRepl_emptyText (g1 g2 g3 pre post : List Char) :
    expandRepl g1 g2 g3 pre post (citationReplTemplate "") = g1 ++ "\n\n---".data := rfl

/-- C3, claim as stated, is false: on a concrete plugin-shaped note, running
the change-citation-style rewrite with the empty citation text (the `None`
style's formatter output) produces a document that still contains the
`## Citation` heading — an empty Citation section is emitted. -/
theorem claim3_counterexample :
    changeCitationStyleUpdate
      "---\nDOI: 10.1/x\n---\n\n# T\n\n## Citation\nOLD\n\n---\n\n## Abstract\nA\n" "" =
      some "---\n\nDOI: 10.1/x\n---\n\n\n# T\n\n## Citation\n\n\n---\n\n## Abstract\nA\n" ∧
    containsSubstr
      "---\n\nDOI: 10.1/x\n---\n\n\n# T\n\n## Citation\n\n\n---\n\n## Abstract\nA\n"
      "## Citation" = true :=
  ⟨by decide, by decide⟩

/-- C3 (amended): the `None` style formats to the empty string, and
`createNote` then emits no Citation section at all — the document is
exactly metadata block, title heading and abstract section; the
change-citation-style body rewrite, however, always leaves a `## Citation`
heading in the updated body (rewriting an existing section's text to the
empty string, or appending an empty section at the end), so that operation
emits an empty Citation section. -/
theorem claim3_amended (m : BibRecord) (today : String) (body : String) :
    formatCitation m CitationStyle.None = some "" ∧
    createNoteContent m CitationStyle.None today =
      some (createNoteFrontmatter m today ++ "\n\n" ++ "# " ++ headingTitle m ++ "\n\n" ++
        abstractSection m) ∧
    containsSubstr (replaceCitationSection body "") "## Citation" = true := by
  refine ⟨rfl, ?_, ?_⟩
  · simp [createNoteContent, formatCitation, citationBlock, String.append_empty]
  · unfold containsSubstr
    cases h : splitCitation body.data with
    | some pr =>
      obtain ⟨pre, mid, post⟩ := pr
      simp only [replaceCitationSection, h]
      rw [expandRepl_emptyText]
      apply splitFirst_isSome_of_decomp _ _ (pre) ("\n".data ++ "\n\n---".data ++ post)
        (by decide)
      have hh : headPat = "## Citation".data ++ "\n".data := by decide
      simp [hh, List.append_assoc]
    | none =>
      simp only [replaceCitationSection, h]
      apply splitFirst_isSome_of_decomp _ _ (body.data ++ "\n".data)
        ("\n".data ++ "\n\n---".data) (by decide)
      have hh : ("\n## Citation\n" : String).data =
        "\n".data ++ "## Citation".data ++ "\n".data := by decide
      simp [String.data_append, hh, List.append_assoc]

/-- The two serializers agree on the `authors:` line for every record. -/
theorem createAuthorsLine_eq (m : BibRecord) :
    createAuthorsLine m = updateAuthorsLine m := by
  unfold createAuthorsLine updateAuthorsLine
  cases m.author with
  | none => simp [authorsStrings]
  | some arr => simp [authorsStrings]

/-- The two serializers agree on the `ISBN:` line whenever `ISBN`, if
present, has a truthy first element. -/
theorem createIsbnLine_eq (m : BibRecord)
    (h : m.isbn = none ∨ ∃ x xs, m.isbn = some (x :: xs) ∧ x ≠ "") :
    createIsbnLine m = updateIsbnLine m := by
  rcases h with h | ⟨x, xs, h, hx⟩
  · simp [createIsbnLine, updateIsbnLine, h]
  · have hb : (x == "") = false := beq_eq_false_iff_ne.mpr hx
    simp [createIsbnLine, updateIsbnLine, h, jsOptStr, hb]

/-- The two serializers agree on the `Date Accessed:` line whenever the
record stores no truthy `date-accessed`. -/
theorem createDateLine_eq (m : BibRecord) (today : String)
    (h : truthyStr m.dateAccessed = false) :
    "Date Accessed: " ++ today ++ "\n" = updateDateLine m today := by
  simp [updateDateLine, h]

/-- C5, claim as stated, is false: on a record carrying a stored
`date-accessed` value, rendering writes today's date while the rewriter
re-emits the stored value, so the metadata blocks differ byte-wise even on
the same calendar day. -/
theorem claim5_counterexample :
    createNoteFrontmatter { dateAccessed := some "1999-01-01" } "2026-10-12" ≠
      updateFrontmatterString { dateAccessed := some "1999-01-01" } "2026-10-12" := by
  decide

/-- C5 (amended): rendering a record and rewriting with the identical record
on the same calendar day yields byte-identical metadata block content,
provided the record stores no truthy `date-accessed` value and its `ISBN`,
when present, has a truthy first element.  (The serializers guard the ISBN
line differently and source the access date differently — see the
counterexample.) -/
theorem claim5_amended (m : BibRecord) (today : String)
    (hisbn : m.isbn = none ∨ ∃ x xs, m.isbn = some (x :: xs) ∧ x ≠ "")
    (hdate : truthyStr m.dateAccessed = false) :
    createNoteFrontmatter m today = updateFrontmatterString m today := by
  unfold createNoteFrontmatter updateFrontmatterString
  rw [createAuthorsLine_eq, createIsbnLine_eq m hisbn,
    ← createDateLine_eq m today hdate]

/-- Witness for C5 (amended) at a concrete record and date. -/
theorem claim5_witness :
    createNoteFrontmatter { doi := some "10.1/x" } "2026-10-12" =
      updateFrontmatterString { doi := some "10.1/x" } "2026-10-12" :=
  claim5_amended _ _ (Or.inl rfl) rfl

/-- The Vancouver author shape is at least one character long (it always
contains the space between family and initial). -/
theorem vanName_length (a : Author) : 1 ≤ (vanName a).length := by
  unfold vanName
  rw [String.length_append, String.length_append]
  have h1 : (" " : String).length = 1 := rfl
  omega

/-- Appending a period never produces the exact `", et al"` string. -/
theorem append_dot_ne_etal (s : String) : (s ++ ".") ≠ ", et al" := by
  intro h
  have hd := congrArg String.data h
  rw [String.data_append] at hd
  have h1 : (s.data ++ (".").data).getLast? = some '.' := by
    have he : ("." : String).data = ['.'] := rfl
    rw [he]; exact List.getLast?_concat _
  rw [hd] at h1
  exact absurd h1 (by decide)

/-- Appending a period never produces the empty string. -/
theorem append_dot_ne_empty (s : String) : (s ++ ".") ≠ "" := by
  intro h
  have hl := congrArg String.length h
  rw [String.length_append] at hl
  have h1 : ("." : String).length = 1 := rfl
  have h2 : ("" : String).length = 0 := rfl
  rw [h1, h2] at hl
  omega

/-- Appending `", et al"` to a nonempty string never yields `", et al"`. -/
theorem etal_append_ne_etal (s : String) (hs : 1 ≤ s.length) :
    (s ++ ", et al") ≠ ", et al" := by
  intro h
  have hl := congrArg String.length h
  rw [String.length_append] at hl
  have h7 : (", et al" : String).length = 7 := rfl
  rw [h7] at hl
  omega

/-- Appending `", et al"` never yields the empty string. -/
theorem etal_append_ne_empty (s : String) : (s ++ ", et al") ≠ "" := by
  intro h
  have hl := congrArg String.length h
  rw [String.length_append] at hl
  have h7 : (", et al" : String).length = 7 := rfl
  have h0 : ("" : String).length = 0 := rfl
  rw [h7, h0] at hl
  omega

/-- With more than 3 authors, every Vancouver map entry from the fourth
author on is the empty string. -/
theorem vancouverEntry_tail_eq_empty (n i : Nat) (a : Author) (hn : 3 < n)
    (hi : 3 ≤ i) : vancouverAuthorEntry n i a = "" := by
  simp only [vancouverAuthorEntry]
  rw [if_neg (by omega), if_neg (by omega)]

/-- A Vancouver map entry that is neither the third of a long list nor past
the third gets a trailing period. -/
theorem vancouverEntry_dot (n i : Nat) (a : Author) (h2 : ¬(3 < n ∧ i = 2))
    (h3 : n ≤ 3 ∨ i < 3) : vancouverAuthorEntry n i a = vanName a ++ "." := by
  simp only [vancouverAuthorEntry]
  rw [if_neg h2, if_pos h3]

/-- The third Vancouver map entry of a list of more than 3 authors carries
`", et al"`. -/
theorem vancouverEntry_etal (n : Nat) (a : Author) (h : 3 < n) :
    vancouverAuthorEntry n 2 a = vanName a ++ ", et al" := by
  simp [vancouverAuthorEntry, h]

/-- With more than 3 authors, the filtered Vancouver entries from index 3 on
vanish. -/
theorem vancouver_tail_filter (n : Nat) (hn : 3 < n) :
    ∀ (l : List Author) (i : Nat), 3 ≤ i →
      (mapWithIndex (vancouverAuthorEntry n) i l).filter
        (fun s => !(s == ", et al") && !(s == "")) = [] := by
  intro l
  induction l with
  | nil => intro i _; rfl
  | cons a l2 ih =>
    intro i hi
    simp only [mapWithIndex]
    rw [vancouverEntry_tail_eq_empty n i a hn hi]
    simp [ih (i + 1) (by omega)]

/-- C9, claim as stated, is false: with 4 authors the Vancouver author list
is "Aa A. Bb B. Cc C, et al" — it keeps the THIRD author's name (with
`", et al"` appended to it), so the list does not consist of the first 2
authors followed by "et al" alone. -/
theorem claim9_counterexample :
    vancouverAuthorList
      [{ given := some "Aq", family := some "Aa" },
       { given := some "Bq", family := some "Bb" },
       { given := some "Cq", family := some "Cc" },
       { given := some "Dq", family := some "Dd" }] =
      "Aa A. Bb B. Cc C, et al" ∧
    ("Aa A. Bb B. Cc C, et al" : String) ≠ "Aa A. Bb B. et al" :=
  ⟨by decide, by decide⟩

/-- C9 (amended): with more than 3 authors the Vancouver author list keeps
the first THREE authors — the first two as "Family G." with a period after
each, the third as "Family G, et al" — and includes no author beyond the
third. -/
theorem claim9_amended (a b c d : Author) (rest : List Author) :
    vancouverAuthorList (a :: b :: c :: d :: rest) =
      vanName a ++ ". " ++ vanName b ++ ". " ++ vanName c ++ ", et al" := by
  unfold vancouverAuthorList
  have hn : 3 < (a :: b :: c :: d :: rest).length := by
    simp only [List.length_cons]; omega
  simp only [mapWithIndex]
  rw [vancouverEntry_dot _ 0 a (by omega) (by omega),
    vancouverEntry_dot _ 1 b (by omega) (by omega),
    vancouverEntry_etal _ c hn]
  have hfa1 : ((vanName a ++ ".") == ", et al") = false :=
    beq_eq_false_iff_ne.mpr (append_dot_ne_etal (vanName a))
  have hfa2 : ((vanName a ++ ".") == "") = false :=
    beq_eq_false_iff_ne.mpr (append_dot_ne_empty (vanName a))
  have hfb1 : ((vanName b ++ ".") == ", et al") = false :=
    beq_eq_false_iff_ne.mpr (append_dot_ne_etal (vanName b))
  have hfb2 : ((vanName b ++ ".") == "") = false :=
    beq_eq_false_iff_ne.mpr (append_dot_ne_empty (vanName b))
  have hfc1 : ((vanName c ++ ", et al") == ", et al") = false :=
    beq_eq_false_iff_ne.mpr (etal_append_ne_etal (vanName c) (vanName_length c))
  have hfc2 : ((vanName c ++ ", et al") == "") = false :=
    beq_eq_false_iff_ne.mpr (etal_append_ne_empty (vanName c))
  have htail := vancouver_tail_filter _ hn (d :: rest) 3 (by omega)
  simp only [mapWithIndex, List.length_cons] at htail
  rw [List.filter_cons, List.filter_cons, List.filter_cons]
  simp only [hfa1, hfa2, hfb1, hfb2, hfc1, hfc2, Bool.not_false, Bool.and_self,
    if_true, List.length_cons]
  rw [htail]
  simp only [joinSep]
  have hds : (". " : String) = "." ++ " " := rfl
  rw [hds]
  simp [String.append_assoc]

end HappyRef
